import Mathlib

/-!
Verification of the swodlr command-line client (`podaac/swodlr/cli/__main__.py`).

The embedding models:
  * the environment resolver `_get_graphql_url` (URL override, keyword
    override, lowercasing, table lookup);
  * the argparse configuration of the three subcommands, a left-to-right
    token parser faithful to how argparse handles these flag/positional
    layouts, and the resulting namespace (parsed argument mapping);
  * the flow of `main` as an event trace: help printing, the
    `earthaccessapi.login()` call, URL resolution, and the query execution
    call with its variable bindings;
  * the query-document loader `_load_graphql_query`, with the resource
    filesystem abstracted as a membership predicate and a reader.
-/

namespace SwodlrCli

/-- A value held in the parsed argument namespace: argparse stores strings
for user-supplied values, the raw Python default (here the int 10 or None)
for omitted flags, and the bound command function for `func`. -/
inductive Value where
  | vstr : String → Value
  | vint : Int → Value
  | vnone : Value
  | vfunc : String → Value
deriving DecidableEq, Repr

/-- A parsed argument mapping (`vars(args)` on the argparse namespace). -/
abbrev NS := List (String × Value)

/-- The `SWODLR_ENVIRONMENTS` dict from the source. -/
def SWODLR_ENVIRONMENTS : List (String × String) :=
  [("ops", "https://swodlr.podaac.earthdatacloud.nasa.gov/api/graphql"),
   ("uat", "https://swodlr.podaac.uat.earthdatacloud.nasa.gov/api/graphql"),
   ("sit", "https://swodlr.podaac.sit.earthdatacloud.nasa.gov/api/graphql")]

/-- `str.lower()`, character by character. -/
def strLower (s : String) : String :=
  String.mk (s.data.map Char.toLower)

/-- `environ.get('SWODLR_CLI_ENV', env)`: the env var when set, else the
fallback taken from the command line. -/
def selectedVenue (cliEnv env : Option String) : Option String :=
  match cliEnv with
  | some v => some v
  | none => env

/-- `_get_graphql_url`: `cliUrl` models `environ.get('SWODLR_CLI_URL')`,
`cliEnv` models `environ.get('SWODLR_CLI_ENV')`, `env` the `--env` value
passed by `main`. -/
def getGraphqlUrl (cliUrl cliEnv env : Option String) : Except String String :=
  match cliUrl with
  | some url => Except.ok url
  | none =>
    match selectedVenue cliEnv env with
    | none => Except.error "Invalid environment: None"
    | some venue =>
      let v := strLower venue
      match SWODLR_ENVIRONMENTS.lookup v with
      | none => Except.error ("Invalid environment: " ++ v)
      | some url => Except.ok url

/-- The declaration of one subcommand: its positional destinations in
order, and its optional flags as (destination, default) pairs in the order
`add_argument` is called. -/
structure ArgSpec where
  positionals : List String
  options : List (String × Value)
deriving DecidableEq, Repr

/-- The `get-users-products` subcommand declaration from the source. -/
def get_users_products_spec : ArgSpec :=
  { positionals := ["username"],
    options :=
      [("cycle", Value.vnone), ("pass", Value.vnone), ("scene", Value.vnone),
       ("output_granule_extent_flag", Value.vnone),
       ("output_sampling_grid_type", Value.vnone),
       ("raster_resolution", Value.vnone),
       ("utm_zone_adjust", Value.vnone), ("mgrs_band_adjust", Value.vnone),
       ("before_timestamp", Value.vnone), ("after_timestamp", Value.vnone),
       ("after_id", Value.vnone), ("limit", Value.vint 10)] }

/-- The `invalidate-product` subcommand declaration from the source.  Note:
the source attaches the second `--limit` declaration (written in the
`# -- search-products` block) to `invalidate_product_parser`, so this
subcommand carries `limit` with default 10. -/
def invalidate_product_spec : ArgSpec :=
  { positionals := ["id"],
    options := [("limit", Value.vint 10)] }

/-- The `search-products` subcommand declaration from the source.  It has
no `--limit` option: the `--limit` written in its block is added to the
invalidate-product parser instead. -/
def search_products_spec : ArgSpec :=
  { positionals := [],
    options :=
      [("cycle", Value.vnone), ("pass", Value.vnone), ("scene", Value.vnone),
       ("output_granule_extent_flag", Value.vnone),
       ("output_sampling_grid_type", Value.vnone),
       ("raster_resolution", Value.vnone),
       ("utm_zone_adjust", Value.vnone), ("mgrs_band_adjust", Value.vnone),
       ("after_id", Value.vnone)] }

/-- The registered subcommands, in registration order. -/
def subcommands : List (String × ArgSpec) :=
  [("get-users-products", get_users_products_spec),
   ("invalidate-product", invalidate_product_spec),
   ("search-products", search_products_spec)]

/-- A token is an option token when it begins with `--`. -/
def isFlagTok (tok : String) : Bool :=
  match tok.data with
  | '-' :: '-' :: _ => true
  | _ => false

/-- argparse derives the destination of a long flag by stripping the
leading dashes and replacing dashes with underscores. -/
def flagDest (tok : String) : String :=
  String.mk ((tok.data.drop 2).map (fun c => if c = '-' then '_' else c))

/-- Left-to-right consumption of a subcommand's tokens: a `--flag` token
takes the next token as its string value when the flag is declared and is
rejected otherwise; other tokens fill the positionals in order; a missing
positional at the end is an error.  Returns the supplied bindings in
order. -/
def parseTokens (opts : List String) :
    List String → List String → List (String × Value) →
    Except String (List (String × Value))
  | pos, [], acc =>
    match pos with
    | [] => Except.ok acc
    | p :: _ => Except.error ("the following arguments are required: " ++ p)
  | pos, tok :: rest, acc =>
    if isFlagTok tok then
      let dest := flagDest tok
      if opts.contains dest then
        match rest with
        | [] => Except.error ("argument " ++ tok ++ ": expected one argument")
        | v :: rest2 => parseTokens opts pos rest2 (acc ++ [(dest, Value.vstr v)])
      else Except.error ("unrecognized arguments: " ++ tok)
    else
      match pos with
      | [] => Except.error ("unrecognized arguments: " ++ tok)
      | p :: ps => parseTokens opts ps rest (acc ++ [(p, Value.vstr tok)])

/-- Parse a subcommand's tokens and build its part of the namespace: the
supplied bindings followed by the declared defaults of every option not
supplied. -/
def parseSub (spec : ArgSpec) (tokens : List String) : Except String NS :=
  match parseTokens (spec.options.map Prod.fst) spec.positionals tokens [] with
  | Except.error m => Except.error m
  | Except.ok given =>
      Except.ok (given ++ spec.options.filter (fun od => (given.lookup od.1).isNone))

/-- The top-level parser: `--env VALUE` pairs before the subcommand update
the env value (default carried in the second argument), the first
non-flag token selects a subcommand, and an absent subcommand leaves a
namespace without `func`. -/
def parseTop : List String → String → Except String NS
  | [], envVal => Except.ok [("env", Value.vstr envVal)]
  | tok :: rest, envVal =>
    if tok = "--env" then
      match rest with
      | [] => Except.error "argument --env: expected one argument"
      | v :: rest2 => parseTop rest2 v
    else if isFlagTok tok then
      Except.error ("unrecognized arguments: " ++ tok)
    else
      match subcommands.lookup tok with
      | none => Except.error ("invalid choice: " ++ tok)
      | some spec =>
        match parseSub spec rest with
        | Except.error m => Except.error m
        | Except.ok sub =>
          Except.ok (("env", Value.vstr envVal) :: ("func", Value.vfunc tok) :: sub)

/-- `parser.parse_args()`: the `--env` default is the string `"ops"`. -/
def parseArgs (argv : List String) : Except String NS :=
  parseTop argv "ops"

/-- The `env` entry of a parsed namespace, as a string. -/
def nsEnv (ns : NS) : Option String :=
  match ns.lookup "env" with
  | some (Value.vstr s) => some s
  | _ => none

/-- The `func` entry of a parsed namespace: the selected subcommand. -/
def nsFunc (ns : NS) : Option String :=
  match ns.lookup "func" with
  | some (Value.vfunc c) => some c
  | _ => none

/-- `for key in ['func', 'env']: if key in args: del args[key]` on the
namespace dict. -/
def removeMiscKeys (m : NS) : NS :=
  m.filter (fun kv => kv.1 != "func" && kv.1 != "env")

/-- Observable steps of `main`, in program order. -/
inductive Event where
  | printHelp : Event
  | login : Event
  | resolveUrl : String → Event
  | execute : String → NS → Event
  | raiseError : String → Event
deriving DecidableEq, Repr

/-- The flow of `main` as the list of observable events it performs, given
the two environment variables and the command line.  Mirrors the source
order: parse, help-and-return when no `func`, then
`earthaccessapi.login()`, then `_get_graphql_url(args.env)` inside the
transport construction, then the command function's
`session.execute(query, variable_values=args)` on the namespace stripped
of `func` and `env`. -/
def mainTrace (cliUrl cliEnv : Option String) (argv : List String) : List Event :=
  match parseArgs argv with
  | Except.error m => [Event.raiseError m]
  | Except.ok ns =>
    match nsFunc ns with
    | none => [Event.printHelp]
    | some cmd =>
      Event.login ::
        match getGraphqlUrl cliUrl cliEnv (nsEnv ns) with
        | Except.error m => [Event.raiseError m]
        | Except.ok url => [Event.resolveUrl url, Event.execute cmd (removeMiscKeys ns)]

/-- `resources.files().joinpath('graphql-documents', f'<name>.graphql')`,
with the package resource root abstracted as `base`. -/
def resolveResourcePath (base name : String) : String :=
  base ++ "/graphql-documents/" ++ name ++ ".graphql"

/-- `_load_graphql_query`, with the resource filesystem abstracted: `isFile`
models `path.is_file()` and `readText` models reading and parsing the
document (`gql.gql(path.read_text('utf-8'))`). -/
def loadGraphqlQuery (isFile : String → Bool) (readText : String → String)
    (base name : String) : Except String String :=
  let path := resolveResourcePath base name
  if isFile path then Except.ok (readText path)
  else Except.error ("GraphQL document not found: " ++ path)

/-- The document name each command function passes to
`_load_graphql_query` in the source. -/
def commandQueryName : String → Option String
  | "get-users-products" => some "get_users_products"
  | "invalidate-product" => some "invalidate_product"
  | "search-products" => some "search_products"
  | _ => none

end SwodlrCli

namespace SwodlrCli

/-- Claim C1: if SWODLR_CLI_URL is set to any string, `_get_graphql_url`
returns that string verbatim, regardless of SWODLR_CLI_ENV and of the
`--env` value, with no lowercasing and no membership validation. -/
theorem c1_url_override_verbatim (u : String) (cliEnv env : Option String) :
    getGraphqlUrl (some u) cliEnv env = Except.ok u := rfl

/-- Claim C2: with SWODLR_CLI_URL unset, the resolver selects the keyword
from SWODLR_CLI_ENV when set and otherwise from the `--env` value (whose
argparse default is the string "ops"), and for every keyword whose
lowercasing is bound in the environment table it returns the bound literal
URL — so resolution is case-insensitive in the keyword. -/
theorem c2_keyword_resolution (cliEnv env : Option String) (venue url : String)
    (hsel : cliEnv = some venue ∨ (cliEnv = none ∧ env = some venue))
    (hmem : SWODLR_ENVIRONMENTS.lookup (strLower venue) = some url) :
    getGraphqlUrl none cliEnv env = Except.ok url ∧
    (parseArgs ["invalidate-product", "x"]).map nsEnv = Except.ok (some "ops") := by
  constructor
  · rcases hsel with h | ⟨h1, h2⟩
    · simp [getGraphqlUrl, selectedVenue, h, hmem]
    · simp [getGraphqlUrl, selectedVenue, h1, h2, hmem]
  · rfl

/-- Witness for C2 at the concrete keyword "UAT" taken from SWODLR_CLI_ENV. -/
theorem c2_witness :
    getGraphqlUrl none (some "UAT") (some "sit") =
      Except.ok "https://swodlr.podaac.uat.earthdatacloud.nasa.gov/api/graphql" ∧
    (parseArgs ["invalidate-product", "x"]).map nsEnv = Except.ok (some "ops") :=
  c2_keyword_resolution (some "UAT") (some "sit") "UAT"
    "https://swodlr.podaac.uat.earthdatacloud.nasa.gov/api/graphql"
    (Or.inl rfl) rfl

/-- Claim C3: with SWODLR_CLI_URL unset, an absent selected keyword or one
whose lowercasing is not in the environment table makes the resolver raise
an invalid-environment error; and resolution always yields exactly one URL
or fails. -/
theorem c3_invalid_env_errors (cliEnv env : Option String)
    (hbad : selectedVenue cliEnv env = none ∨
      ∃ v, selectedVenue cliEnv env = some v ∧
        SWODLR_ENVIRONMENTS.lookup (strLower v) = none) :
    (∃ m, getGraphqlUrl none cliEnv env = Except.error m) ∧
    (∀ cu ce e : Option String,
      (∃ u, getGraphqlUrl cu ce e = Except.ok u) ∨
      (∃ m, getGraphqlUrl cu ce e = Except.error m)) := by
  constructor
  · rcases hbad with h | ⟨v, hv, hl⟩
    · exact ⟨"Invalid environment: None", by simp [getGraphqlUrl, h]⟩
    · exact ⟨"Invalid environment: " ++ strLower v, by simp [getGraphqlUrl, hv, hl]⟩
  · intro cu ce e
    cases h : getGraphqlUrl cu ce e with
    | ok u => exact Or.inl ⟨u, rfl⟩
    | error m => exact Or.inr ⟨m, rfl⟩

/-- Witness for C3 at the concrete unknown keyword "prod". -/
theorem c3_witness : (getGraphqlUrl none (some "prod") none).isOk = false := by
  rcases (c3_invalid_env_errors (some "prod") none
      (Or.inr ⟨"prod", rfl, rfl⟩)).1 with ⟨m, hm⟩
  rw [hm]
  rfl

end SwodlrCli

namespace SwodlrCli

/-- Claim C4: for every recognized subcommand invocation, the variables
passed to the query execution call are exactly the parsed argument
mapping with the bookkeeping keys `func` and `env` removed: no variable
sent is named `func` or `env`, every variable sent is an entry of the
parsed mapping, and every non-bookkeeping entry of the parsed mapping is
sent unchanged. -/
theorem c4_variables_are_parsed_args (cliUrl cliEnv : Option String)
    (argv : List String) (ns : NS) (cmd : String) (vars : NS)
    (hparse : parseArgs argv = Except.ok ns)
    (hexec : Event.execute cmd vars ∈ mainTrace cliUrl cliEnv argv) :
    (∀ kv ∈ vars, kv.1 ≠ "func" ∧ kv.1 ≠ "env") ∧
    (∀ kv ∈ vars, kv ∈ ns) ∧
    (∀ kv ∈ ns, kv.1 ≠ "func" → kv.1 ≠ "env" → kv ∈ vars) := by
  have hv : vars = removeMiscKeys ns := by
    unfold mainTrace at hexec
    rw [hparse] at hexec
    dsimp only at hexec
    cases hf : nsFunc ns with
    | none => rw [hf] at hexec; simp at hexec
    | some c =>
      rw [hf] at hexec
      dsimp only at hexec
      cases hg : getGraphqlUrl cliUrl cliEnv (nsEnv ns) with
      | error m => rw [hg] at hexec; simp at hexec
      | ok url =>
        rw [hg] at hexec
        simp at hexec
        exact hexec.2
  subst hv
  refine ⟨?_, ?_, ?_⟩
  · intro kv hkv
    simp [removeMiscKeys, List.mem_filter] at hkv
    exact ⟨hkv.2.1, hkv.2.2⟩
  · intro kv hkv
    simp [removeMiscKeys, List.mem_filter] at hkv
    exact hkv.1
  · intro kv hkv h1 h2
    simp [removeMiscKeys, List.mem_filter]
    exact ⟨hkv, h1, h2⟩

/-- Witness for C4: in the concrete invalidate-product invocation, the
variable entry actually sent is neither `func` nor `env`. -/
theorem c4_witness :
    ("id", Value.vstr "123").1 ≠ "func" ∧ ("id", Value.vstr "123").1 ≠ "env" :=
  (c4_variables_are_parsed_args (some "http://x") none
      ["invalidate-product", "123"]
      [("env", Value.vstr "ops"), ("func", Value.vfunc "invalidate-product"),
       ("id", Value.vstr "123"), ("limit", Value.vint 10)]
      "invalidate-product"
      [("id", Value.vstr "123"), ("limit", Value.vint 10)]
      rfl (by rw [show mainTrace (some "http://x") none ["invalidate-product", "123"] =
        [Event.login, Event.resolveUrl "http://x",
         Event.execute "invalidate-product"
           [("id", Value.vstr "123"), ("limit", Value.vint 10)]] from rfl]; simp)).1
    ("id", Value.vstr "123") (by simp)

/-- Counterexample for C5: with an invalid environment keyword "prod", the
trace still begins with the authentication call, so authentication is
reached even though environment resolution fails. -/
theorem c5_counterexample :
    mainTrace none none ["--env", "prod", "invalidate-product", "123"] =
      [Event.login, Event.raiseError "Invalid environment: prod"] := rfl

/-- Claim C5 as amended: when a subcommand is selected and environment
resolution fails, the program performs the authentication call first and
then aborts with the resolver's error, before resolving any URL and
before any query execution. -/
theorem c5_amended_login_before_env_failure (cliUrl cliEnv : Option String)
    (argv : List String) (ns : NS) (cmd m : String)
    (hparse : parseArgs argv = Except.ok ns)
    (hfunc : nsFunc ns = some cmd)
    (hfail : getGraphqlUrl cliUrl cliEnv (nsEnv ns) = Except.error m) :
    mainTrace cliUrl cliEnv argv = [Event.login, Event.raiseError m] := by
  unfold mainTrace
  rw [hparse]
  dsimp only
  rw [hfunc]
  dsimp only
  rw [hfail]

/-- Witness for C5's amended theorem at the concrete keyword "prod". -/
theorem c5_witness :
    mainTrace none (some "prod") ["invalidate-product", "123"] =
      [Event.login, Event.raiseError "Invalid environment: prod"] :=
  c5_amended_login_before_env_failure none (some "prod")
    ["invalidate-product", "123"]
    [("env", Value.vstr "ops"), ("func", Value.vfunc "invalidate-product"),
     ("id", Value.vstr "123"), ("limit", Value.vint 10)]
    "invalidate-product" "Invalid environment: prod" rfl rfl rfl

end SwodlrCli

namespace SwodlrCli

/-- Counterexample for C6: the search-products subcommand does not accept
`--limit` — parsing fails when it is supplied, so the parsed mapping never
contains the supplied value under `limit`; when omitted, no `limit` key is
bound at all. -/
theorem c6_counterexample :
    (parseArgs ["search-products", "--limit", "5"]).isOk = false ∧
    (parseArgs ["search-products"]).map (fun ns => ns.lookup "limit") =
      Except.ok none :=
  ⟨rfl, rfl⟩

/-- Claim C6 as amended: search-products declares no `--limit` option at
all — supplying `--limit` with any value is rejected as unrecognized, and
an invocation without it binds no `limit` key; the `--limit` declaration
written in the search-products block is attached to the invalidate-product
subcommand, where it carries the default 10. -/
theorem c6_amended_no_limit_flag (v : String) :
    parseArgs ["search-products", "--limit", v] =
      Except.error "unrecognized arguments: --limit" ∧
    search_products_spec.options.lookup "limit" = none ∧
    invalidate_product_spec.options.lookup "limit" = some (Value.vint 10) ∧
    (parseArgs ["search-products"]).map (fun ns => ns.lookup "limit") =
      Except.ok none :=
  ⟨rfl, rfl, rfl, rfl⟩

/-- Claim C7: invalidate-product requires the positional `id` and accepts
`--limit` with default 10, so an invocation carrying only an id parses to
a mapping that binds `limit` to 10, and an invocation without the id is
rejected. -/
theorem c7_invalidate_product_limit_default (s : String)
    (hs : isFlagTok s = false) :
    parseArgs ["invalidate-product", s] =
      Except.ok [("env", Value.vstr "ops"),
        ("func", Value.vfunc "invalidate-product"),
        ("id", Value.vstr s), ("limit", Value.vint 10)] ∧
    parseArgs ["invalidate-product"] =
      Except.error "the following arguments are required: id" := by
  refine ⟨?_, rfl⟩
  simp [parseArgs, parseTop, parseSub, parseTokens, subcommands,
    invalidate_product_spec, get_users_products_spec, search_products_spec,
    hs, List.lookup, List.filter,
    show isFlagTok "invalidate-product" = false from rfl]

/-- Witness for C7 at the concrete id "123". -/
theorem c7_witness :
    parseArgs ["invalidate-product", "123"] =
      Except.ok [("env", Value.vstr "ops"),
        ("func", Value.vfunc "invalidate-product"),
        ("id", Value.vstr "123"), ("limit", Value.vint 10)] ∧
    parseArgs ["invalidate-product"] =
      Except.error "the following arguments are required: id" :=
  c7_invalidate_product_limit_default "123" rfl

/-- Claim C8: the query loader resolves the name to the fixed path
`<base>/graphql-documents/<name>.graphql`; when no file exists there it
fails with a document-not-found error carrying that resolved path, and
otherwise returns the loaded document; the names the three command
functions pass are exactly the command names with dashes replaced by
underscores. -/
theorem c8_query_loader (isFile : String → Bool) (readText : String → String)
    (base name : String) :
    (isFile (resolveResourcePath base name) = true →
      loadGraphqlQuery isFile readText base name =
        Except.ok (readText (resolveResourcePath base name))) ∧
    (isFile (resolveResourcePath base name) = false →
      loadGraphqlQuery isFile readText base name =
        Except.error ("GraphQL document not found: " ++
          resolveResourcePath base name)) ∧
    (∀ cmd qn, commandQueryName cmd = some qn →
      qn = String.mk (cmd.data.map (fun c => if c = '-' then '_' else c))) ∧
    commandQueryName "get-users-products" = some "get_users_products" ∧
    commandQueryName "invalidate-product" = some "invalidate_product" ∧
    commandQueryName "search-products" = some "search_products" := by
  refine ⟨?_, ?_, ?_, rfl, rfl, rfl⟩
  · intro h
    simp [loadGraphqlQuery, h]
  · intro h
    simp [loadGraphqlQuery, h]
  · intro cmd qn h
    unfold commandQueryName at h
    split at h
    · cases h; rfl
    · cases h; rfl
    · cases h; rfl
    · cases h

/-- Witness for C8: with an empty resource set, loading any document fails
with the resolved path in the message. -/
theorem c8_witness :
    loadGraphqlQuery (fun _ => false) (fun _ => "") "R" "get_users_products" =
      Except.error
        "GraphQL document not found: R/graphql-documents/get_users_products.graphql" :=
  (c8_query_loader (fun _ => false) (fun _ => "") "R" "get_users_products").2.1 rfl

end SwodlrCli

namespace SwodlrCli

/-- Claim C9: an invocation that selects no subcommand (the parsed
namespace has no `func`) only prints the help text: no authentication
call and no query execution appear in the trace. -/
theorem c9_no_subcommand_prints_help (cliUrl cliEnv : Option String)
    (argv : List String) (ns : NS)
    (hparse : parseArgs argv = Except.ok ns) (hfunc : nsFunc ns = none) :
    mainTrace cliUrl cliEnv argv = [Event.printHelp] ∧
    Event.login ∉ mainTrace cliUrl cliEnv argv ∧
    ∀ c vars, Event.execute c vars ∉ mainTrace cliUrl cliEnv argv := by
  have h : mainTrace cliUrl cliEnv argv = [Event.printHelp] := by
    unfold mainTrace
    rw [hparse]
    dsimp only
    rw [hfunc]
  refine ⟨h, ?_, ?_⟩
  · rw [h]; simp
  · intro c vars; rw [h]; simp

/-- Witness for C9 at the empty command line. -/
theorem c9_witness : mainTrace none none [] = [Event.printHelp] :=
  (c9_no_subcommand_prints_help none none [] [("env", Value.vstr "ops")]
    rfl rfl).1

/-- Claim C10: when `--limit` is omitted on a subcommand that declares a
default for it, the variables sent to the query execution call bind
`limit` to the integer 10; a user-supplied `--limit` value arrives as a
string; and the integer 10 differs from the string "10". -/
theorem c10_default_limit_is_int (s v : String) (hs : isFlagTok s = false) :
    mainTrace (some "http://x") none ["invalidate-product", s] =
      [Event.login, Event.resolveUrl "http://x",
       Event.execute "invalidate-product"
         [("id", Value.vstr s), ("limit", Value.vint 10)]] ∧
    mainTrace (some "http://x") none ["invalidate-product", s, "--limit", v] =
      [Event.login, Event.resolveUrl "http://x",
       Event.execute "invalidate-product"
         [("id", Value.vstr s), ("limit", Value.vstr v)]] ∧
    mainTrace (some "http://x") none ["get-users-products", s] =
      [Event.login, Event.resolveUrl "http://x",
       Event.execute "get-users-products"
         [("username", Value.vstr s), ("cycle", Value.vnone),
          ("pass", Value.vnone), ("scene", Value.vnone),
          ("output_granule_extent_flag", Value.vnone),
          ("output_sampling_grid_type", Value.vnone),
          ("raster_resolution", Value.vnone),
          ("utm_zone_adjust", Value.vnone), ("mgrs_band_adjust", Value.vnone),
          ("before_timestamp", Value.vnone), ("after_timestamp", Value.vnone),
          ("after_id", Value.vnone), ("limit", Value.vint 10)]] ∧
    Value.vint 10 ≠ Value.vstr "10" := by
  refine ⟨?_, ?_, ?_, by simp⟩
  · simp [mainTrace, parseArgs, parseTop, parseSub, parseTokens, subcommands,
      invalidate_product_spec, nsFunc, nsEnv, removeMiscKeys, getGraphqlUrl,
      List.lookup, List.filter, hs,
      show isFlagTok "invalidate-product" = false from rfl]
  · simp [mainTrace, parseArgs, parseTop, parseSub, parseTokens, subcommands,
      invalidate_product_spec, nsFunc, nsEnv, removeMiscKeys, getGraphqlUrl,
      List.lookup, List.filter, hs,
      show isFlagTok "invalidate-product" = false from rfl,
      show isFlagTok "--limit" = true from rfl,
      show flagDest "--limit" = "limit" from rfl]
  · simp [mainTrace, parseArgs, parseTop, parseSub, parseTokens, subcommands,
      get_users_products_spec, nsFunc, nsEnv, removeMiscKeys, getGraphqlUrl,
      List.lookup, List.filter, hs,
      show isFlagTok "get-users-products" = false from rfl]

/-- Witness for C10 at the concrete id "123" and supplied limit "7". -/
theorem c10_witness :
    mainTrace (some "http://x") none ["invalidate-product", "123"] =
      [Event.login, Event.resolveUrl "http://x",
       Event.execute "invalidate-product"
         [("id", Value.vstr "123"), ("limit", Value.vint 10)]] ∧
    Value.vint 10 ≠ Value.vstr "10" :=
  ⟨(c10_default_limit_is_int "123" "7" rfl).1,
   (c10_default_limit_is_int "123" "7" rfl).2.2.2⟩

end SwodlrCli
